import Mathlib

/-!
# SAI attribute contract: ARS path profile and performance monitor

Shallow embedding of `inc/saiarspathprofile.h` and `inc/saiperfmon.h`.

The two headers contain declarations only: C enums and, in the Doxygen comment
of every attribute enumerator, the tags `@type`, `@flags`, `@objects`,
`@default` and `@validonly`.  The first part of this file transcribes those
declarations (enumerators in declaration order with their initialisers, tags as
written) and computes enumerator values with the C rule.  The second part is
the object/attribute engine and the latency aggregator, which exist only in the
specification; every definition of that part says so in its doc comment.
-/

namespace SAI

/-! ## C enum declarations -/

/-- Initialiser of one enumerator inside a C `enum` body. -/
inductive EnumInit (α : Type) where
  /-- No initialiser: one more than the previous enumerator, 0 for the first. -/
  | implicit : EnumInit α
  /-- Initialiser that is an integer literal, as in `= 0x10000000`. -/
  | lit (n : Nat) : EnumInit α
  /-- Initialiser that names an earlier enumerator of the same enum. -/
  | ref (a : α) : EnumInit α
  deriving DecidableEq, Repr

/-- Values of the enumerators of a C enum body, processed left to right:
`next` is the value an enumerator without initialiser receives, `acc` holds the
enumerators already processed.  A reference to an enumerator that has not been
declared yet has no value (a C compiler rejects it). -/
def enumValuesFrom {α : Type} [DecidableEq α] :
    List (α × EnumInit α) → Nat → List (α × Nat) → Option (List (α × Nat))
  | [], _, acc => some acc
  | (a, .implicit) :: rest, next, acc => enumValuesFrom rest (next + 1) (acc ++ [(a, next)])
  | (a, .lit n) :: rest, _, acc => enumValuesFrom rest (n + 1) (acc ++ [(a, n)])
  | (a, .ref b) :: rest, _, acc =>
    match acc.lookup b with
    | none => none
    | some v => enumValuesFrom rest (v + 1) (acc ++ [(a, v)])

/-- Value of enumerator `a` in the enum body `decl`, when the body is well formed
and declares `a`. -/
def enumValue? {α : Type} [DecidableEq α] (decl : List (α × EnumInit α)) (a : α) : Option Nat :=
  (enumValuesFrom decl 0 []).bind (fun vs => vs.lookup a)

/-- Value of enumerator `a` as a number, 0 when `enumValue?` has none; by the
`*_val_defined` theorems this never happens for the enums below. -/
def enumVal {α : Type} [DecidableEq α] (decl : List (α × EnumInit α)) (a : α) : Nat :=
  (enumValue? decl a).getD 0

/-! ### `sai_ars_path_profile_type_t` (saiarspathprofile.h, lines 39-53) -/

/-- Enumerators of `sai_ars_path_profile_type_t`. -/
inductive sai_ars_path_profile_type_t where
  | SAI_ARS_PATH_PROFILE_TYPE_PUBLISHER
  | SAI_ARS_PATH_PROFILE_TYPE_SUBSCRIBER
  | SAI_ARS_PATH_PROFILE_TYPE_BOTH
  | SAI_ARS_PATH_PROFILE_TYPE_NONE
  deriving DecidableEq, Repr

open sai_ars_path_profile_type_t

/-- Body of `enum _sai_ars_path_profile_type_t` in declaration order. -/
def sai_ars_path_profile_type_t.decl :
    List (sai_ars_path_profile_type_t × EnumInit sai_ars_path_profile_type_t) :=
  [ (SAI_ARS_PATH_PROFILE_TYPE_PUBLISHER, .implicit),
    (SAI_ARS_PATH_PROFILE_TYPE_SUBSCRIBER, .implicit),
    (SAI_ARS_PATH_PROFILE_TYPE_BOTH, .implicit),
    (SAI_ARS_PATH_PROFILE_TYPE_NONE, .implicit) ]

/-- Integer value of a profile type. -/
def sai_ars_path_profile_type_t.val (t : sai_ars_path_profile_type_t) : Nat :=
  enumVal sai_ars_path_profile_type_t.decl t

/-! ### `sai_ars_path_profile_attr_t` (saiarspathprofile.h, lines 58-116) -/

/-- Enumerators of `sai_ars_path_profile_attr_t`. -/
inductive sai_ars_path_profile_attr_t where
  | SAI_ARS_PATH_PROFILE_ATTR_START
  | SAI_ARS_PATH_PROFILE_ATTR_TYPE
  | SAI_ARS_PATH_PROFILE_ATTR_MON_PORT_LIST
  | SAI_ARS_PATH_PROFILE_ATTR_PUB_PORT_LIST
  | SAI_ARS_PATH_PROFILE_ATTR_REMOTE_PATH_ID_LIST
  | SAI_ARS_PATH_PROFILE_ATTR_END
  | SAI_ARS_PATH_PROFILE_ATTR_CUSTOM_RANGE_START
  | SAI_ARS_PATH_PROFILE_ATTR_CUSTOM_RANGE_END
  deriving DecidableEq, Repr

open sai_ars_path_profile_attr_t

/-- Body of `enum _sai_ars_path_profile_attr_t` in declaration order. -/
def sai_ars_path_profile_attr_t.decl :
    List (sai_ars_path_profile_attr_t × EnumInit sai_ars_path_profile_attr_t) :=
  [ (SAI_ARS_PATH_PROFILE_ATTR_START, .implicit),
    (SAI_ARS_PATH_PROFILE_ATTR_TYPE, .ref SAI_ARS_PATH_PROFILE_ATTR_START),
    (SAI_ARS_PATH_PROFILE_ATTR_MON_PORT_LIST, .implicit),
    (SAI_ARS_PATH_PROFILE_ATTR_PUB_PORT_LIST, .implicit),
    (SAI_ARS_PATH_PROFILE_ATTR_REMOTE_PATH_ID_LIST, .implicit),
    (SAI_ARS_PATH_PROFILE_ATTR_END, .implicit),
    (SAI_ARS_PATH_PROFILE_ATTR_CUSTOM_RANGE_START, .lit 0x10000000),
    (SAI_ARS_PATH_PROFILE_ATTR_CUSTOM_RANGE_END, .implicit) ]

/-- Integer value of an ARS path profile attribute enumerator. -/
def sai_ars_path_profile_attr_t.val (a : sai_ars_path_profile_attr_t) : Nat :=
  enumVal sai_ars_path_profile_attr_t.decl a

/-! ### `sai_perfmon_metrics_t` (saiperfmon.h, lines 39-61) -/

/-- Enumerators of `sai_perfmon_metrics_t`. -/
inductive sai_perfmon_metrics_t where
  | SAI_PERFMON_METRICS_NONE
  | SAI_PERFMON_METRICS_MAX_LATENCY
  | SAI_PERFMON_METRICS_AVERAGE_LATENCY
  | SAI_PERFMON_METRICS_INST_LATENCY
  deriving DecidableEq, Repr

open sai_perfmon_metrics_t

/-- Body of `enum _sai_perfmon_metrics_t` in declaration order. -/
def sai_perfmon_metrics_t.decl :
    List (sai_perfmon_metrics_t × EnumInit sai_perfmon_metrics_t) :=
  [ (SAI_PERFMON_METRICS_NONE, .implicit),
    (SAI_PERFMON_METRICS_MAX_LATENCY, .implicit),
    (SAI_PERFMON_METRICS_AVERAGE_LATENCY, .implicit),
    (SAI_PERFMON_METRICS_INST_LATENCY, .implicit) ]

/-- Integer value of a metric kind. -/
def sai_perfmon_metrics_t.val (m : sai_perfmon_metrics_t) : Nat :=
  enumVal sai_perfmon_metrics_t.decl m

/-! ### `sai_perfmon_attr_t` (saiperfmon.h, lines 66-118) -/

/-- Enumerators of `sai_perfmon_attr_t`. -/
inductive sai_perfmon_attr_t where
  | SAI_PERFMON_ATTR_START
  | SAI_PERFMON_ATTR_OBJECT_TYPE
  | SAI_PERFMON_ATTR_COMMON_API
  | SAI_PERFMON_ATTR_PERFMON_METRICS
  | SAI_PERFMON_ATTR_PERFMON_DATA
  | SAI_PERFMON_ATTR_END
  | SAI_PERFMON_ATTR_CUSTOM_RANGE_START
  | SAI_PERFMON_ATTR_CUSTOM_RANGE_END
  deriving DecidableEq, Repr

open sai_perfmon_attr_t

/-- Body of `enum _sai_perfmon_attr_t` in declaration order. -/
def sai_perfmon_attr_t.decl :
    List (sai_perfmon_attr_t × EnumInit sai_perfmon_attr_t) :=
  [ (SAI_PERFMON_ATTR_START, .implicit),
    (SAI_PERFMON_ATTR_OBJECT_TYPE, .ref SAI_PERFMON_ATTR_START),
    (SAI_PERFMON_ATTR_COMMON_API, .implicit),
    (SAI_PERFMON_ATTR_PERFMON_METRICS, .implicit),
    (SAI_PERFMON_ATTR_PERFMON_DATA, .implicit),
    (SAI_PERFMON_ATTR_END, .implicit),
    (SAI_PERFMON_ATTR_CUSTOM_RANGE_START, .lit 0x10000000),
    (SAI_PERFMON_ATTR_CUSTOM_RANGE_END, .implicit) ]

/-- Integer value of a performance monitor attribute enumerator. -/
def sai_perfmon_attr_t.val (a : sai_perfmon_attr_t) : Nat :=
  enumVal sai_perfmon_attr_t.decl a

/-! ## Doxygen attribute tags -/

/-- Modelled from the spec: `sai_object_type_t` is declared in `saitypes.h`,
which is not among the sources.  The port tag is the one named by the `@objects`
tags; the two other tags are the object families these headers define; any
further tag is carried as its raw number. -/
inductive sai_object_type_t where
  | SAI_OBJECT_TYPE_PORT
  | SAI_OBJECT_TYPE_ARS_PATH_PROFILE
  | SAI_OBJECT_TYPE_PERFMON
  | other (raw : Nat)
  deriving DecidableEq, Repr

open sai_object_type_t

/-- Words of the `@flags` tag.  The two headers use `CREATE_AND_SET` and
`READ_ONLY`; `MANDATORY_ON_CREATE` and `CREATE_ONLY` are the remaining words of
the tag vocabulary. -/
inductive AttrFlag where
  | MANDATORY_ON_CREATE
  | CREATE_ONLY
  | CREATE_AND_SET
  | READ_ONLY
  deriving DecidableEq, Repr

/-- Type names that occur in the `@type` tags of the two headers. -/
inductive CType where
  | sai_ars_path_profile_type_t
  | sai_object_list_t
  | sai_u32_list_t
  | sai_object_type_t
  | sai_common_api_t
  | sai_perfmon_metrics_t
  | sai_uint64_t
  deriving DecidableEq, Repr

/-- Enumerators named by `@default` and `@validonly` tags.  `SAI_COMMON_API_MAX`
belongs to `sai_common_api_t` of `saitypes.h`, which is not among the sources. -/
inductive EnumConst where
  | arsType (t : sai_ars_path_profile_type_t)
  | metrics (m : sai_perfmon_metrics_t)
  | SAI_COMMON_API_MAX
  deriving DecidableEq, Repr

/-- Argument of a `@default` tag. -/
inductive DefaultTag where
  /-- The tag `@default empty`. -/
  | empty
  /-- The tag `@default ENUMERATOR`. -/
  | const (c : EnumConst)
  deriving DecidableEq, Repr

/-- Condition of a `@validonly` tag: comparisons `ATTR == VALUE` joined by `or`. -/
inductive Cond (α β : Type) where
  | eq (attr : α) (value : β) : Cond α β
  | or (l r : Cond α β) : Cond α β
  deriving DecidableEq, Repr

/-- Tags of one attribute enumerator; a tag that is not written is `none` / `[]`. -/
structure AttrDoc (α : Type) where
  type : CType
  flags : List AttrFlag
  objects : List sai_object_type_t
  default : Option DefaultTag
  validonly : Option (Cond α EnumConst)

/-- Tags written in saiarspathprofile.h.  `START`, `END` and the two custom range
markers carry a `@brief` only, so they declare no attribute. -/
def sai_ars_path_profile_attr_t.doc :
    sai_ars_path_profile_attr_t → Option (AttrDoc sai_ars_path_profile_attr_t)
  | SAI_ARS_PATH_PROFILE_ATTR_START => none
  | SAI_ARS_PATH_PROFILE_ATTR_TYPE => some
      { type := .sai_ars_path_profile_type_t
        flags := [.CREATE_AND_SET]
        objects := []
        default := some (.const (.arsType SAI_ARS_PATH_PROFILE_TYPE_NONE))
        validonly := none }
  | SAI_ARS_PATH_PROFILE_ATTR_MON_PORT_LIST => some
      { type := .sai_object_list_t
        flags := [.CREATE_AND_SET]
        objects := [SAI_OBJECT_TYPE_PORT]
        default := some .empty
        validonly := some (.or
          (.eq SAI_ARS_PATH_PROFILE_ATTR_TYPE (.arsType SAI_ARS_PATH_PROFILE_TYPE_PUBLISHER))
          (.eq SAI_ARS_PATH_PROFILE_ATTR_TYPE (.arsType SAI_ARS_PATH_PROFILE_TYPE_BOTH))) }
  | SAI_ARS_PATH_PROFILE_ATTR_PUB_PORT_LIST => some
      { type := .sai_object_list_t
        flags := [.CREATE_AND_SET]
        objects := [SAI_OBJECT_TYPE_PORT]
        default := some .empty
        validonly := some (.or
          (.eq SAI_ARS_PATH_PROFILE_ATTR_TYPE (.arsType SAI_ARS_PATH_PROFILE_TYPE_PUBLISHER))
          (.eq SAI_ARS_PATH_PROFILE_ATTR_TYPE (.arsType SAI_ARS_PATH_PROFILE_TYPE_BOTH))) }
  | SAI_ARS_PATH_PROFILE_ATTR_REMOTE_PATH_ID_LIST => some
      { type := .sai_u32_list_t
        flags := [.CREATE_AND_SET]
        objects := []
        default := some .empty
        validonly := none }
  | SAI_ARS_PATH_PROFILE_ATTR_END => none
  | SAI_ARS_PATH_PROFILE_ATTR_CUSTOM_RANGE_START => none
  | SAI_ARS_PATH_PROFILE_ATTR_CUSTOM_RANGE_END => none

/-- Tags written in saiperfmon.h.  `START`, `END` and the two custom range markers
carry a `@brief` only, so they declare no attribute. -/
def sai_perfmon_attr_t.doc : sai_perfmon_attr_t → Option (AttrDoc sai_perfmon_attr_t)
  | SAI_PERFMON_ATTR_START => none
  | SAI_PERFMON_ATTR_OBJECT_TYPE => some
      { type := .sai_object_type_t
        flags := [.CREATE_AND_SET]
        objects := []
        default := none
        validonly := none }
  | SAI_PERFMON_ATTR_COMMON_API => some
      { type := .sai_common_api_t
        flags := [.CREATE_AND_SET]
        objects := []
        default := some (.const .SAI_COMMON_API_MAX)
        validonly := none }
  | SAI_PERFMON_ATTR_PERFMON_METRICS => some
      { type := .sai_perfmon_metrics_t
        flags := [.CREATE_AND_SET]
        objects := []
        default := some (.const (.metrics SAI_PERFMON_METRICS_NONE))
        validonly := none }
  | SAI_PERFMON_ATTR_PERFMON_DATA => some
      { type := .sai_uint64_t
        flags := [.READ_ONLY]
        objects := []
        default := none
        validonly := none }
  | SAI_PERFMON_ATTR_END => none
  | SAI_PERFMON_ATTR_CUSTOM_RANGE_START => none
  | SAI_PERFMON_ATTR_CUSTOM_RANGE_END => none

/-- Attribute enumerators of a header: those that carry attribute tags, in
declaration order. -/
def declaredAttrs {α : Type} (decl : List (α × EnumInit α)) (doc : α → Option (AttrDoc α)) :
    List α :=
  (decl.map Prod.fst).filter (fun a => (doc a).isSome)

/-- Half-open interval test `lo ≤ x < hi`. -/
def inRange (lo hi x : Nat) : Bool := decide (lo ≤ x) && decide (x < hi)

/-! ## Attribute values and schema catalog

The headers give the tags; the value container, the schema entry and every
operation below are described in the specification only. -/

/-- Modelled from the spec: kind tags of the closed `AttributeValue` variant
(section 3); no source file declares the value container. -/
inductive ValueKind where
  | boolean
  | u32
  | u64
  | enumValue
  | objectRef
  | objectList
  | u32List
  deriving DecidableEq, Repr

/-- Modelled from the spec: `ObjectId` (section 3), a handle made of an object
type tag and an instance identifier; `sai_object_id_t` is declared in
`saitypes.h`, which is not among the sources. -/
structure ObjectId where
  type : sai_object_type_t
  inst : Nat
  deriving DecidableEq, Repr

/-- Modelled from the spec: `AttributeValue` (section 3), a value that carries its
own kind; `sai_attribute_value_t` is declared in `saitypes.h`, which is not among
the sources. -/
inductive AttributeValue where
  | boolean (b : Bool)
  | u32 (n : Nat)
  | u64 (n : Nat)
  | enumValue (n : Nat)
  | objectRef (o : ObjectId)
  | objectList (l : List ObjectId)
  | u32List (l : List Nat)
  deriving DecidableEq, Repr

/-- Modelled from the spec: the kind tag an `AttributeValue` carries. -/
def AttributeValue.kind : AttributeValue → ValueKind
  | .boolean _ => .boolean
  | .u32 _ => .u32
  | .u64 _ => .u64
  | .enumValue _ => .enumValue
  | .objectRef _ => .objectRef
  | .objectList _ => .objectList
  | .u32List _ => .u32List

/-- Value kind of a `@type` name.  The two enums declared in the headers are enum
values.  Modelled from the spec: the other five names are typedefs of
`saitypes.h`, which is not among the sources; section 3 gives their kinds (object
list, list of unsigned 32-bit integers, unsigned 64-bit integer, and enum values
for the monitored object type and API). -/
def CType.kind : CType → ValueKind
  | .sai_ars_path_profile_type_t => .enumValue
  | .sai_object_list_t => .objectList
  | .sai_u32_list_t => .u32List
  | .sai_object_type_t => .enumValue
  | .sai_common_api_t => .enumValue
  | .sai_perfmon_metrics_t => .enumValue
  | .sai_uint64_t => .u64

/-- Integer value of an enumerator named by a tag.  `apiMax` is the value of
`SAI_COMMON_API_MAX`, a constant of `saitypes.h` that is not among the sources. -/
def EnumConst.val (apiMax : Nat) : EnumConst → Nat
  | .arsType t => t.val
  | .metrics m => m.val
  | .SAI_COMMON_API_MAX => apiMax

/-- Default value denoted by a `@default` tag for an attribute of kind `k`:
`empty` is the empty list of a list kind, an enumerator is its enum value. -/
def DefaultTag.value (apiMax : Nat) (k : ValueKind) : DefaultTag → Option AttributeValue
  | .empty =>
    match k with
    | .objectList => some (.objectList [])
    | .u32List => some (.u32List [])
    | _ => none
  | .const c =>
    match k with
    | .enumValue => some (.enumValue (c.val apiMax))
    | _ => none

/-- Replace the names of a `@validonly` condition by their integer values. -/
def Cond.resolve {α β : Type} (f : α → Nat) (g : β → Nat) : Cond α β → Cond Nat Nat
  | .eq a v => .eq (f a) (g v)
  | .or l r => .or (l.resolve f g) (r.resolve f g)

/-- Modelled from the spec: `AttributeSchemaEntry` (section 3): attribute id,
value kind, mutability flags, default value and the optional
conditional-applicability predicate; `objects` keeps the `@objects` tag. -/
structure SchemaEntry where
  id : Nat
  kind : ValueKind
  flags : List AttrFlag
  default : Option AttributeValue
  objects : List sai_object_type_t
  applicable : Option (Cond Nat Nat)
  deriving DecidableEq, Repr

/-- Schema entry of the attribute enumerator `a` whose tags are `d`. -/
def entryOf {α : Type} [DecidableEq α] (decl : List (α × EnumInit α)) (apiMax : Nat)
    (a : α) (d : AttrDoc α) : SchemaEntry :=
  { id := enumVal decl a
    kind := d.type.kind
    flags := d.flags
    default := d.default.bind (fun t => t.value apiMax d.type.kind)
    objects := d.objects
    applicable := d.validonly.map (fun c => c.resolve (enumVal decl) (EnumConst.val apiMax)) }

/-- Schema of a header: one entry per declared attribute, in declaration order. -/
def schemaOf {α : Type} [DecidableEq α] (decl : List (α × EnumInit α))
    (doc : α → Option (AttrDoc α)) (apiMax : Nat) : List SchemaEntry :=
  (decl.map Prod.fst).filterMap (fun a => (doc a).map (entryOf decl apiMax a))

/-- Schema of the ARS path profile object type. -/
def arsPathProfileSchema (apiMax : Nat) : List SchemaEntry :=
  schemaOf sai_ars_path_profile_attr_t.decl sai_ars_path_profile_attr_t.doc apiMax

/-- Schema of the performance monitor object type. -/
def perfmonSchema (apiMax : Nat) : List SchemaEntry :=
  schemaOf sai_perfmon_attr_t.decl sai_perfmon_attr_t.doc apiMax

/-- Modelled from the spec: the per-object-type schema catalog (section 2); object
types other than the two of these headers have no schema here. -/
def schema? (apiMax : Nat) : sai_object_type_t → Option (List SchemaEntry)
  | SAI_OBJECT_TYPE_ARS_PATH_PROFILE => some (arsPathProfileSchema apiMax)
  | SAI_OBJECT_TYPE_PERFMON => some (perfmonSchema apiMax)
  | _ => none

/-- The four range markers `(START, END, CUSTOM_RANGE_START, CUSTOM_RANGE_END)` of
an object type's attribute enum. -/
def attrRanges? : sai_object_type_t → Option (Nat × Nat × Nat × Nat)
  | SAI_OBJECT_TYPE_ARS_PATH_PROFILE => some
      (SAI_ARS_PATH_PROFILE_ATTR_START.val, SAI_ARS_PATH_PROFILE_ATTR_END.val,
       SAI_ARS_PATH_PROFILE_ATTR_CUSTOM_RANGE_START.val,
       SAI_ARS_PATH_PROFILE_ATTR_CUSTOM_RANGE_END.val)
  | SAI_OBJECT_TYPE_PERFMON => some
      (SAI_PERFMON_ATTR_START.val, SAI_PERFMON_ATTR_END.val,
       SAI_PERFMON_ATTR_CUSTOM_RANGE_START.val, SAI_PERFMON_ATTR_CUSTOM_RANGE_END.val)
  | _ => none

/-- The entry is flagged `READ_ONLY`. -/
def SchemaEntry.readOnly (e : SchemaEntry) : Bool := e.flags.contains .READ_ONLY

/-- The entry is flagged `MANDATORY_ON_CREATE`. -/
def SchemaEntry.mandatory (e : SchemaEntry) : Bool := e.flags.contains .MANDATORY_ON_CREATE

/-- The entry is settable by the caller: flagged `CREATE_ONLY` or `CREATE_AND_SET`. -/
def SchemaEntry.callerSettable (e : SchemaEntry) : Bool :=
  e.flags.contains .CREATE_ONLY || e.flags.contains .CREATE_AND_SET

/-! ## Validator (specification, section 4.2) -/

/-- Modelled from the spec: the error taxonomy of section 7; the headers only name
the status type `sai_status_t`. -/
inductive Error where
  | InvalidParameter
  | UnknownAttribute
  | WrongType
  | NotSettable
  | MissingAttribute
  | PreconditionNotMet
  | NotFound
  | ResourceExhausted
  | NotSupported
  deriving DecidableEq, Repr

/-- An attribute list: pairs of attribute id and value. -/
abbrev AttrList := List (Nat × AttributeValue)

/-- Modelled from the spec: schema lookup of an attribute id (section 4.2). -/
def lookupEntry (s : List SchemaEntry) (id : Nat) : Option SchemaEntry :=
  s.find? (fun e => e.id == id)

/-- Modelled from the spec: "the union of proposed and existing attribute values"
(section 4.2); a proposed value takes the place of the existing one. -/
def unionEnv (proposed existing : AttrList) (id : Nat) : Option AttributeValue :=
  match proposed.lookup id with
  | some v => some v
  | none => existing.lookup id

/-- Truth value of a resolved `@validonly` condition over attribute values: a
comparison holds when the attribute has exactly that enum value. -/
def Cond.eval (env : Nat → Option AttributeValue) : Cond Nat Nat → Bool
  | .eq a v => decide (env a = some (.enumValue v))
  | .or l r => l.eval env || r.eval env

/-- The conditional-applicability predicate of an entry; an entry without
`@validonly` is always applicable. -/
def SchemaEntry.applies (e : SchemaEntry) (env : Nat → Option AttributeValue) : Bool :=
  match e.applicable with
  | none => true
  | some c => c.eval env

/-- Modelled from the spec: the checks of one supplied attribute in the order of
section 4.2: unknown attribute, wrong kind, read-only, predicate false. -/
def checkSupplied (s : List SchemaEntry) (env : Nat → Option AttributeValue)
    (a : Nat × AttributeValue) : Option Error :=
  match lookupEntry s a.1 with
  | none => some .UnknownAttribute
  | some e =>
    if a.2.kind ≠ e.kind then some .WrongType
    else if e.readOnly then some .NotSettable
    else if e.applies env then none
    else some .PreconditionNotMet

/-- Modelled from the spec: on create, a mandatory attribute without default that
is absent from the proposed attributes is missing (section 4.2). -/
def missingMandatory (s : List SchemaEntry) (proposed : AttrList) : List (Nat × Error) :=
  s.filterMap (fun e =>
    if e.mandatory && e.default.isNone && !(proposed.any (fun a => a.1 == e.id))
    then some (e.id, Error.MissingAttribute) else none)

/-- Modelled from the spec: every schema violation of a call, tagged with the
attribute id it concerns. -/
def violations (s : List SchemaEntry) (proposed existing : AttrList) (onCreate : Bool) :
    List (Nat × Error) :=
  proposed.filterMap
      (fun a => (checkSupplied s (unionEnv proposed existing) a).map (fun e => (a.1, e)))
    ++ (if onCreate then missingMandatory s proposed else [])

/-- Modelled from the spec: the tie-break rule of section 4.2, the violation with
the least attribute id (the earliest one among equal ids). -/
def firstViolation : List (Nat × Error) → Option (Nat × Error)
  | [] => none
  | v :: vs =>
    match firstViolation vs with
    | none => some v
    | some w => if w.1 < v.1 then some w else some v

/-- Modelled from the spec: `validate(object_type, proposed_attrs, existing_attrs)`
of section 4.2, on the schema `s` of the object type; `onCreate` adds the
missing-attribute rule of create(). -/
def validate (s : List SchemaEntry) (proposed existing : AttrList) (onCreate : Bool) :
    Except Error Unit :=
  match firstViolation (violations s proposed existing onCreate) with
  | none => .ok ()
  | some v => .error v.2

/-! ## Object registry (specification, section 4.1) -/

/-- Modelled from the spec: accumulation state of a PerfmonEntry (sections 4.4
and 5): the visible data value and the internal running sum and count. -/
structure PerfmonAccum where
  data : Nat
  sum : Nat
  count : Nat
  deriving DecidableEq, Repr

/-- Modelled from the spec: state of one object: its attribute values and, for a
PerfmonEntry, the accumulation state owned by the aggregator. -/
structure Object where
  attrs : AttrList
  accum : PerfmonAccum
  deriving DecidableEq, Repr

/-- Modelled from the spec: the object registry (section 4.1); `next` is the next
instance identifier (monotonic allocation). -/
structure Registry where
  next : Nat
  objects : List (ObjectId × Object)
  deriving DecidableEq, Repr

/-- Modelled from the spec: the schema defaults (section 4.1, create()). -/
def defaults (s : List SchemaEntry) : AttrList :=
  s.filterMap (fun e => e.default.map (fun v => (e.id, v)))

/-- Modelled from the spec: "applies Schema defaults for all unspecified
attributes": for each schema attribute the supplied value, else the default. -/
def defaultFill (s : List SchemaEntry) (supplied : AttrList) : AttrList :=
  s.filterMap (fun e => (unionEnv supplied (defaults s) e.id).map (fun v => (e.id, v)))

/-- Modelled from the spec: `create(type, attrs)` of section 4.1.  The supplied
attributes are validated against the default-filled set; on failure the
registry is returned as it was. -/
def create (apiMax : Nat) (r : Registry) (t : sai_object_type_t) (attrs : AttrList) :
    Registry × Except Error ObjectId :=
  match schema? apiMax t with
  | none => (r, .error .NotSupported)
  | some s =>
    match validate s attrs (defaults s) true with
    | .error e => (r, .error e)
    | .ok _ =>
      ({ next := r.next + 1
         objects := r.objects ++
           [(⟨t, r.next⟩, { attrs := defaultFill s attrs, accum := ⟨0, 0, 0⟩ })] },
       .ok ⟨t, r.next⟩)

/-- Modelled from the spec: `remove(id)` of section 4.1. -/
def remove (r : Registry) (id : ObjectId) : Registry × Except Error Unit :=
  match r.objects.lookup id with
  | none => (r, .error .NotFound)
  | some _ => ({ r with objects := r.objects.filter (fun p => p.1 != id) }, .ok ())

/-- Replace the value of attribute `a.1`, or add it when it has none. -/
def setAttr (attrs : AttrList) (a : Nat × AttributeValue) : AttrList :=
  if attrs.any (fun x => x.1 == a.1)
  then attrs.map (fun x => if x.1 == a.1 then a else x)
  else attrs ++ [a]

/-- Modelled from the spec: the rule of section 4.3 for set(): every other
attribute that holds a value different from its default must still be applicable
in the updated attribute set. -/
def populatedStillApply (s : List SchemaEntry) (updated : AttrList) (changed : Nat) : Bool :=
  updated.all (fun x =>
    x.1 == changed ||
      match lookupEntry s x.1 with
      | none => true
      | some e => decide (e.default = some x.2) || e.applies (fun id => updated.lookup id))

/-- Replace the state of object `id`. -/
def putObject (r : Registry) (id : ObjectId) (o : Object) : Registry :=
  { r with objects := r.objects.map (fun p => if p.1 = id then (id, o) else p) }

/-- Modelled from the spec: `set(id, attr)` of section 4.1: unknown id, then the
read-only flag, then validation of the changed attribute against the current
attribute set; on failure the registry is returned as it was. -/
def set (apiMax : Nat) (r : Registry) (id : ObjectId) (a : Nat × AttributeValue) :
    Registry × Except Error Unit :=
  match r.objects.lookup id with
  | none => (r, .error .NotFound)
  | some o =>
    match schema? apiMax id.type with
    | none => (r, .error .NotSupported)
    | some s =>
      if (lookupEntry s a.1).any SchemaEntry.readOnly then (r, .error .NotSettable)
      else
        match validate s [a] o.attrs false with
        | .error e => (r, .error e)
        | .ok _ =>
          if populatedStillApply s (setAttr o.attrs a) a.1
          then (putObject r id { o with attrs := setAttr o.attrs a }, .ok ())
          else (r, .error .PreconditionNotMet)

/-- The id lies in the standard range `[ATTR_START, ATTR_END)` of the object type. -/
def inStandardRange (t : sai_object_type_t) (a : Nat) : Bool :=
  match attrRanges? t with
  | none => false
  | some (start, stop, _, _) => inRange start stop a

/-- The id lies in the custom range `[ATTR_CUSTOM_RANGE_START, ATTR_CUSTOM_RANGE_END)`
of the object type. -/
def inCustomRange (t : sai_object_type_t) (a : Nat) : Bool :=
  match attrRanges? t with
  | none => false
  | some (_, _, customStart, customStop) => inRange customStart customStop a

/-- Modelled from the spec: an attribute id is valid for an object type when it
lies in the standard or in the custom range (sections 4.1 and 6). -/
def validAttrId (t : sai_object_type_t) (a : Nat) : Bool :=
  inStandardRange t a || inCustomRange t a

/-- Modelled from the spec: the current value of one attribute, with the
read-only refresh of PERFMON_DATA from the accumulation state (section 4.1). -/
def readAttr (id : ObjectId) (o : Object) (a : Nat) : Option AttributeValue :=
  if id.type = SAI_OBJECT_TYPE_PERFMON ∧ a = SAI_PERFMON_ATTR_PERFMON_DATA.val
  then some (.u64 o.accum.data)
  else o.attrs.lookup a

/-- Modelled from the spec: `get(id, attr_ids)` of section 4.1; an attribute that
holds no value is returned as `none`. -/
def get (r : Registry) (id : ObjectId) (ids : List Nat) :
    Except Error (List (Nat × Option AttributeValue)) :=
  match r.objects.lookup id with
  | none => .error .NotFound
  | some o =>
    if ids.all (validAttrId id.type) then .ok (ids.map (fun a => (a, readAttr id o a)))
    else .error .NotFound

/-! ## Performance monitor aggregator (specification, section 4.4) -/

/-- Modelled from the spec: the update of one entry by one matching sample, by
metric kind (section 4.4). -/
def ingestEntry (metric : Nat) (acc : PerfmonAccum) (latency : Nat) : PerfmonAccum :=
  if metric = SAI_PERFMON_METRICS_MAX_LATENCY.val then
    { acc with data := max acc.data latency }
  else if metric = SAI_PERFMON_METRICS_AVERAGE_LATENCY.val then
    { data := (acc.sum + latency) / (acc.count + 1)
      sum := acc.sum + latency
      count := acc.count + 1 }
  else if metric = SAI_PERFMON_METRICS_INST_LATENCY.val then
    { acc with data := latency }
  else acc

/-- Modelled from the spec: a PerfmonEntry matches the key (monitored object
type, monitored API) of a sample. -/
def matchesKey (id : ObjectId) (o : Object) (objectType api : Nat) : Bool :=
  decide (id.type = SAI_OBJECT_TYPE_PERFMON) &&
  decide (o.attrs.lookup SAI_PERFMON_ATTR_OBJECT_TYPE.val = some (.enumValue objectType)) &&
  decide (o.attrs.lookup SAI_PERFMON_ATTR_COMMON_API.val = some (.enumValue api))

/-- Modelled from the spec: the effect of one sample on one object. -/
def ingestObject (objectType api latency : Nat) (p : ObjectId × Object) : ObjectId × Object :=
  if matchesKey p.1 p.2 objectType api then
    match p.2.attrs.lookup SAI_PERFMON_ATTR_PERFMON_METRICS.val with
    | some (.enumValue m) => (p.1, { p.2 with accum := ingestEntry m p.2.accum latency })
    | _ => p
  else p

/-- Modelled from the spec: `ingest_sample(object_type, api, latency)` of section
4.4: every entry with that key is updated, each on its own state. -/
def ingest_sample (r : Registry) (objectType api latency : Nat) : Registry :=
  { r with objects := r.objects.map (ingestObject objectType api latency) }

/-- Ingest a finite sequence of samples `(object type, API, latency)` in order. -/
def ingestAll (r : Registry) (samples : List (Nat × Nat × Nat)) : Registry :=
  samples.foldl (fun acc x => ingest_sample acc x.1 x.2.1 x.2.2) r

/-- Integer average named by the specification: `sum / count`, and the default 0
when there is no sample. -/
def average (latencies : List Nat) : Nat :=
  if latencies = [] then 0 else latencies.sum / latencies.length

/-! ## Schema properties named by the specification -/

/-- The attribute set that holds for TYPE the value of profile type `t`, followed
by arbitrary other values. -/
def withType (t : sai_ars_path_profile_type_t) (rest : AttrList) : AttrList :=
  (SAI_ARS_PATH_PROFILE_ATTR_TYPE.val, .enumValue t.val) :: rest

/-- The predicate of attribute `id` in schema `s`, evaluated on the attribute set
`attrs`; `none` when `s` declares no such attribute. -/
def appliesOn (s : List SchemaEntry) (id : Nat) (attrs : AttrList) : Option Bool :=
  (lookupEntry s id).map (fun e => e.applies (fun a => attrs.lookup a))

/-- Every conditional-applicability predicate of schema `s` holds on the
default-filled empty attribute list. -/
def defaultsSatisfyPredicates (s : List SchemaEntry) : Bool :=
  s.all (fun e => e.applies (fun a => (defaultFill s []).lookup a))

/-- A caller-settable entry that has neither a default nor the mandatory marking. -/
def SchemaEntry.lacksDefault (e : SchemaEntry) : Bool :=
  e.callerSettable && !e.mandatory && e.default.isNone

/-- The kinds of the closed `AttributeValue` variant, in the order of section 3 of
the specification. -/
def closedVariant : List ValueKind :=
  [.boolean, .u32, .u64, .enumValue, .objectRef, .objectList, .u32List]

/-- Latencies of the samples of a stream whose key is `(objectType, api)`. -/
def matching (objectType api : Nat) (samples : List (Nat × Nat × Nat)) : List Nat :=
  (samples.filter (fun x => decide (x.1 = objectType ∧ x.2.1 = api))).map (fun x => x.2.2)

/-- Accumulation state of an average-latency entry that ingested the latencies
`ls`, starting from the state of a new entry. -/
def averageAccum (ls : List Nat) : PerfmonAccum :=
  { data := average ls, sum := ls.sum, count := ls.length }

/-- A performance monitor entry with key (5, 2) and metric AVERAGE_LATENCY, in
the state create() leaves it. -/
def perfmonExampleEntry : Object :=
  { attrs := [(0, .enumValue 5), (1, .enumValue 2), (2, .enumValue 2)]
    accum := ⟨0, 0, 0⟩ }

/-- A registry holding `perfmonExampleEntry` under the first performance monitor
handle. -/
def perfmonExample : Registry :=
  { next := 1
    objects := [(⟨SAI_OBJECT_TYPE_PERFMON, 0⟩, perfmonExampleEntry)] }

/-! ## Enumerator values -/

/-- Every enumerator of `sai_ars_path_profile_type_t` has a value under the C rule. -/
theorem ars_type_val_defined (t : sai_ars_path_profile_type_t) :
    enumValue? sai_ars_path_profile_type_t.decl t = some t.val := by
  cases t <;> rfl

/-- Every enumerator of `sai_ars_path_profile_attr_t` has a value under the C rule. -/
theorem ars_attr_val_defined (a : sai_ars_path_profile_attr_t) :
    enumValue? sai_ars_path_profile_attr_t.decl a = some a.val := by
  cases a <;> rfl

/-- Every enumerator of `sai_perfmon_metrics_t` has a value under the C rule. -/
theorem perfmon_metrics_val_defined (m : sai_perfmon_metrics_t) :
    enumValue? sai_perfmon_metrics_t.decl m = some m.val := by
  cases m <;> rfl

/-- Every enumerator of `sai_perfmon_attr_t` has a value under the C rule. -/
theorem perfmon_attr_val_defined (a : sai_perfmon_attr_t) :
    enumValue? sai_perfmon_attr_t.decl a = some a.val := by
  cases a <;> rfl

/-- The range markers of the two attribute enums. -/
theorem attrRanges_eq :
    attrRanges? SAI_OBJECT_TYPE_ARS_PATH_PROFILE = some (0, 4, 0x10000000, 0x10000001) ∧
    attrRanges? SAI_OBJECT_TYPE_PERFMON = some (0, 4, 0x10000000, 0x10000001) := by
  constructor <;> rfl

/-- Unfolding of the interval test. -/
theorem inRange_iff (lo hi x : Nat) : inRange lo hi x = true ↔ lo ≤ x ∧ x < hi := by
  simp [inRange]

/-- C4. For every object type, an attribute id of the standard range
`[ATTR_START, ATTR_END)` is not in the custom range
`[ATTR_CUSTOM_RANGE_START, ATTR_CUSTOM_RANGE_END)` and is strictly below
`0x10000000`; so no id belongs to both ranges. -/
theorem standard_custom_ranges_disjoint (t : sai_object_type_t) (x : Nat)
    (h : inStandardRange t x = true) :
    inCustomRange t x = false ∧ x < 0x10000000 := by
  have hr := attrRanges_eq
  cases t with
  | SAI_OBJECT_TYPE_PORT => simp [inStandardRange, attrRanges?] at h
  | other raw => simp [inStandardRange, attrRanges?] at h
  | SAI_OBJECT_TYPE_ARS_PATH_PROFILE =>
    simp only [inStandardRange, hr.1, inRange_iff] at h
    simp only [inCustomRange, hr.1]
    refine ⟨?_, by omega⟩
    rw [Bool.eq_false_iff, Ne, inRange_iff]
    omega
  | SAI_OBJECT_TYPE_PERFMON =>
    simp only [inStandardRange, hr.2, inRange_iff] at h
    simp only [inCustomRange, hr.2]
    refine ⟨?_, by omega⟩
    rw [Bool.eq_false_iff, Ne, inRange_iff]
    omega

/-- Witness for C4: id 3 of both object types is standard, not custom, and below
`0x10000000`. -/
theorem standard_custom_ranges_disjoint_witness :
    (inStandardRange SAI_OBJECT_TYPE_ARS_PATH_PROFILE 3 = true ∧
      inCustomRange SAI_OBJECT_TYPE_ARS_PATH_PROFILE 3 = false ∧ 3 < 0x10000000) ∧
    (inStandardRange SAI_OBJECT_TYPE_PERFMON 3 = true ∧
      inCustomRange SAI_OBJECT_TYPE_PERFMON 3 = false ∧ 3 < 0x10000000) :=
  ⟨⟨by decide, standard_custom_ranges_disjoint SAI_OBJECT_TYPE_ARS_PATH_PROFILE 3 (by decide)⟩,
   ⟨by decide, standard_custom_ranges_disjoint SAI_OBJECT_TYPE_PERFMON 3 (by decide)⟩⟩

/-- C5. In both headers the declared attributes have, in declaration order, the
ids 0, 1, 2, 3 (pairwise distinct), `ATTR_START` is 0 and `ATTR_END` is 4; an
integer lies in `[ATTR_START, ATTR_END)` exactly when it is the id of one and
only one declared attribute, and `ATTR_END` is the id of no declared attribute. -/
theorem standard_ids_dense :
    (declaredAttrs sai_ars_path_profile_attr_t.decl sai_ars_path_profile_attr_t.doc =
        [SAI_ARS_PATH_PROFILE_ATTR_TYPE, SAI_ARS_PATH_PROFILE_ATTR_MON_PORT_LIST,
         SAI_ARS_PATH_PROFILE_ATTR_PUB_PORT_LIST,
         SAI_ARS_PATH_PROFILE_ATTR_REMOTE_PATH_ID_LIST] ∧
      (declaredAttrs sai_ars_path_profile_attr_t.decl sai_ars_path_profile_attr_t.doc).map
        sai_ars_path_profile_attr_t.val = [0, 1, 2, 3] ∧
      SAI_ARS_PATH_PROFILE_ATTR_START.val = 0 ∧ SAI_ARS_PATH_PROFILE_ATTR_END.val = 4 ∧
      (∀ i : Nat,
        inRange SAI_ARS_PATH_PROFILE_ATTR_START.val SAI_ARS_PATH_PROFILE_ATTR_END.val i = true ↔
        ∃! a, a ∈ declaredAttrs sai_ars_path_profile_attr_t.decl
                sai_ars_path_profile_attr_t.doc ∧ a.val = i) ∧
      SAI_ARS_PATH_PROFILE_ATTR_END.val ∉
        (declaredAttrs sai_ars_path_profile_attr_t.decl sai_ars_path_profile_attr_t.doc).map
          sai_ars_path_profile_attr_t.val) ∧
    (declaredAttrs sai_perfmon_attr_t.decl sai_perfmon_attr_t.doc =
        [SAI_PERFMON_ATTR_OBJECT_TYPE, SAI_PERFMON_ATTR_COMMON_API,
         SAI_PERFMON_ATTR_PERFMON_METRICS, SAI_PERFMON_ATTR_PERFMON_DATA] ∧
      (declaredAttrs sai_perfmon_attr_t.decl sai_perfmon_attr_t.doc).map
        sai_perfmon_attr_t.val = [0, 1, 2, 3] ∧
      SAI_PERFMON_ATTR_START.val = 0 ∧ SAI_PERFMON_ATTR_END.val = 4 ∧
      (∀ i : Nat,
        inRange SAI_PERFMON_ATTR_START.val SAI_PERFMON_ATTR_END.val i = true ↔
        ∃! a, a ∈ declaredAttrs sai_perfmon_attr_t.decl sai_perfmon_attr_t.doc ∧ a.val = i) ∧
      SAI_PERFMON_ATTR_END.val ∉
        (declaredAttrs sai_perfmon_attr_t.decl sai_perfmon_attr_t.doc).map
          sai_perfmon_attr_t.val) := by
  refine ⟨⟨by decide, by decide, by decide, by decide, ?_, by decide⟩,
          ⟨by decide, by decide, by decide, by decide, ?_, by decide⟩⟩
  · intro i
    have hs : SAI_ARS_PATH_PROFILE_ATTR_START.val = 0 := by decide
    have he : SAI_ARS_PATH_PROFILE_ATTR_END.val = 4 := by decide
    rw [inRange_iff, hs, he]
    constructor
    · rintro ⟨_, hi⟩
      interval_cases i
      · exact ⟨SAI_ARS_PATH_PROFILE_ATTR_TYPE, ⟨by decide, by decide⟩,
          fun b hb => by cases b <;> revert hb <;> decide⟩
      · exact ⟨SAI_ARS_PATH_PROFILE_ATTR_MON_PORT_LIST, ⟨by decide, by decide⟩,
          fun b hb => by cases b <;> revert hb <;> decide⟩
      · exact ⟨SAI_ARS_PATH_PROFILE_ATTR_PUB_PORT_LIST, ⟨by decide, by decide⟩,
          fun b hb => by cases b <;> revert hb <;> decide⟩
      · exact ⟨SAI_ARS_PATH_PROFILE_ATTR_REMOTE_PATH_ID_LIST, ⟨by decide, by decide⟩,
          fun b hb => by cases b <;> revert hb <;> decide⟩
    · rintro ⟨a, ⟨ha, hv⟩, _⟩
      subst hv
      cases a <;> first | (exact ⟨Nat.zero_le _, by decide⟩) | (exact absurd ha (by decide))
  · intro i
    have hs : SAI_PERFMON_ATTR_START.val = 0 := by decide
    have he : SAI_PERFMON_ATTR_END.val = 4 := by decide
    rw [inRange_iff, hs, he]
    constructor
    · rintro ⟨_, hi⟩
      interval_cases i
      · exact ⟨SAI_PERFMON_ATTR_OBJECT_TYPE, ⟨by decide, by decide⟩,
          fun b hb => by cases b <;> revert hb <;> decide⟩
      · exact ⟨SAI_PERFMON_ATTR_COMMON_API, ⟨by decide, by decide⟩,
          fun b hb => by cases b <;> revert hb <;> decide⟩
      · exact ⟨SAI_PERFMON_ATTR_PERFMON_METRICS, ⟨by decide, by decide⟩,
          fun b hb => by cases b <;> revert hb <;> decide⟩
      · exact ⟨SAI_PERFMON_ATTR_PERFMON_DATA, ⟨by decide, by decide⟩,
          fun b hb => by cases b <;> revert hb <;> decide⟩
    · rintro ⟨a, ⟨ha, hv⟩, _⟩
      subst hv
      cases a <;> first | (exact ⟨Nat.zero_le _, by decide⟩) | (exact absurd ha (by decide))

/-- C9. In both headers `ATTR_CUSTOM_RANGE_START` is `0x10000000` and
`ATTR_CUSTOM_RANGE_END` is `0x10000001`, so an id lies in the custom range
exactly when it is `0x10000000`; the enumerator with that value carries no
attribute tags and no declared attribute has that id. -/
theorem custom_range_single_id :
    (SAI_ARS_PATH_PROFILE_ATTR_CUSTOM_RANGE_START.val = 0x10000000 ∧
      SAI_ARS_PATH_PROFILE_ATTR_CUSTOM_RANGE_END.val = 0x10000001 ∧
      (∀ x : Nat, inCustomRange SAI_OBJECT_TYPE_ARS_PATH_PROFILE x = true ↔ x = 0x10000000) ∧
      (∀ a : sai_ars_path_profile_attr_t, a.val = 0x10000000 ↔
        a = SAI_ARS_PATH_PROFILE_ATTR_CUSTOM_RANGE_START) ∧
      (sai_ars_path_profile_attr_t.doc SAI_ARS_PATH_PROFILE_ATTR_CUSTOM_RANGE_START).isNone
        = true ∧
      0x10000000 ∉
        (declaredAttrs sai_ars_path_profile_attr_t.decl sai_ars_path_profile_attr_t.doc).map
          sai_ars_path_profile_attr_t.val) ∧
    (SAI_PERFMON_ATTR_CUSTOM_RANGE_START.val = 0x10000000 ∧
      SAI_PERFMON_ATTR_CUSTOM_RANGE_END.val = 0x10000001 ∧
      (∀ x : Nat, inCustomRange SAI_OBJECT_TYPE_PERFMON x = true ↔ x = 0x10000000) ∧
      (∀ a : sai_perfmon_attr_t, a.val = 0x10000000 ↔
        a = SAI_PERFMON_ATTR_CUSTOM_RANGE_START) ∧
      (sai_perfmon_attr_t.doc SAI_PERFMON_ATTR_CUSTOM_RANGE_START).isNone = true ∧
      0x10000000 ∉
        (declaredAttrs sai_perfmon_attr_t.decl sai_perfmon_attr_t.doc).map
          sai_perfmon_attr_t.val) := by
  have hr := attrRanges_eq
  refine ⟨⟨by decide, by decide, ?_, ?_, by decide, by decide⟩,
          ⟨by decide, by decide, ?_, ?_, by decide, by decide⟩⟩
  · intro x
    simp only [inCustomRange, hr.1, inRange_iff]
    omega
  · intro a
    cases a <;> decide
  · intro x
    simp only [inCustomRange, hr.2, inRange_iff]
    omega
  · intro a
    cases a <;> decide

/-! ## The two schemas -/

/-- The ARS path profile schema, entry by entry. -/
theorem arsPathProfileSchema_eq (apiMax : Nat) :
    arsPathProfileSchema apiMax =
      [ { id := 0, kind := .enumValue, flags := [.CREATE_AND_SET],
          default := some (.enumValue 3), objects := [], applicable := none },
        { id := 1, kind := .objectList, flags := [.CREATE_AND_SET],
          default := some (.objectList []), objects := [SAI_OBJECT_TYPE_PORT],
          applicable := some (.or (.eq 0 0) (.eq 0 2)) },
        { id := 2, kind := .objectList, flags := [.CREATE_AND_SET],
          default := some (.objectList []), objects := [SAI_OBJECT_TYPE_PORT],
          applicable := some (.or (.eq 0 0) (.eq 0 2)) },
        { id := 3, kind := .u32List, flags := [.CREATE_AND_SET],
          default := some (.u32List []), objects := [], applicable := none } ] := by
  rfl

/-- The performance monitor schema, entry by entry. -/
theorem perfmonSchema_eq (apiMax : Nat) :
    perfmonSchema apiMax =
      [ { id := 0, kind := .enumValue, flags := [.CREATE_AND_SET],
          default := none, objects := [], applicable := none },
        { id := 1, kind := .enumValue, flags := [.CREATE_AND_SET],
          default := some (.enumValue apiMax), objects := [], applicable := none },
        { id := 2, kind := .enumValue, flags := [.CREATE_AND_SET],
          default := some (.enumValue 0), objects := [], applicable := none },
        { id := 3, kind := .u64, flags := [.READ_ONLY],
          default := none, objects := [], applicable := none } ] := by
  rfl

/-- The applicability predicate of both port lists on an attribute set:
TYPE holds the enum value 0 or the enum value 2. -/
theorem port_list_appliesOn (apiMax : Nat) (attrs : AttrList) :
    appliesOn (arsPathProfileSchema apiMax) 1 attrs =
        some (decide (attrs.lookup 0 = some (.enumValue 0)) ||
              decide (attrs.lookup 0 = some (.enumValue 2))) ∧
    appliesOn (arsPathProfileSchema apiMax) 2 attrs =
        some (decide (attrs.lookup 0 = some (.enumValue 0)) ||
              decide (attrs.lookup 0 = some (.enumValue 2))) := by
  rw [arsPathProfileSchema_eq]
  constructor <;> rfl

/-- C1. For every profile type `t` and every attribute set whose TYPE is `t`, the
`@validonly` predicate of MON_PORT_LIST holds iff `t` is PUBLISHER or BOTH, and
likewise for PUB_PORT_LIST.  Hence create with TYPE=SUBSCRIBER and a supplied
MON_PORT_LIST (any list, in particular a non-empty one) fails
PreconditionNotMet and leaves the registry as it was, while the same call with
TYPE=PUBLISHER succeeds and stores the list. -/
theorem port_lists_applicable_iff_publisher_or_both (apiMax : Nat)
    (t : sai_ars_path_profile_type_t) (rest : AttrList) (r : Registry) (l : List ObjectId) :
    (appliesOn (arsPathProfileSchema apiMax) SAI_ARS_PATH_PROFILE_ATTR_MON_PORT_LIST.val
        (withType t rest) = some true ↔
      t = SAI_ARS_PATH_PROFILE_TYPE_PUBLISHER ∨ t = SAI_ARS_PATH_PROFILE_TYPE_BOTH) ∧
    (appliesOn (arsPathProfileSchema apiMax) SAI_ARS_PATH_PROFILE_ATTR_PUB_PORT_LIST.val
        (withType t rest) = some true ↔
      t = SAI_ARS_PATH_PROFILE_TYPE_PUBLISHER ∨ t = SAI_ARS_PATH_PROFILE_TYPE_BOTH) ∧
    create apiMax r SAI_OBJECT_TYPE_ARS_PATH_PROFILE
        [(SAI_ARS_PATH_PROFILE_ATTR_TYPE.val,
            .enumValue SAI_ARS_PATH_PROFILE_TYPE_SUBSCRIBER.val),
         (SAI_ARS_PATH_PROFILE_ATTR_MON_PORT_LIST.val, .objectList l)] =
      (r, .error .PreconditionNotMet) ∧
    create apiMax r SAI_OBJECT_TYPE_ARS_PATH_PROFILE
        [(SAI_ARS_PATH_PROFILE_ATTR_TYPE.val,
            .enumValue SAI_ARS_PATH_PROFILE_TYPE_PUBLISHER.val),
         (SAI_ARS_PATH_PROFILE_ATTR_MON_PORT_LIST.val, .objectList l)] =
      ({ next := r.next + 1
         objects := r.objects ++
           [(⟨SAI_OBJECT_TYPE_ARS_PATH_PROFILE, r.next⟩,
             { attrs := [(0, .enumValue 0), (1, .objectList l), (2, .objectList []),
                         (3, .u32List [])],
               accum := ⟨0, 0, 0⟩ })] },
       .ok ⟨SAI_OBJECT_TYPE_ARS_PATH_PROFILE, r.next⟩) := by
  have hm : SAI_ARS_PATH_PROFILE_ATTR_MON_PORT_LIST.val = 1 := by decide
  have hp : SAI_ARS_PATH_PROFILE_ATTR_PUB_PORT_LIST.val = 2 := by decide
  have hl : ∀ u : sai_ars_path_profile_type_t,
      (withType u rest).lookup 0 = some (.enumValue u.val) := fun u => rfl
  have ha := port_list_appliesOn apiMax (withType t rest)
  rw [hl t] at ha
  rw [hm, hp, ha.1, ha.2]
  refine ⟨?_, ?_, rfl, rfl⟩ <;> cases t <;> decide

/-- C3 as stated fails: on the default-filled empty attribute list of an ARS path
profile not every conditional-applicability predicate holds. -/
theorem ars_defaults_violate_port_list_predicates :
    defaultsSatisfyPredicates (arsPathProfileSchema 0) = false := by
  decide

/-- C3, amended. Every ARS path profile attribute has a schema default and none is
mandatory; default-filling the empty attribute list gives TYPE=NONE and the three
lists empty; on that set the predicates of MON_PORT_LIST and PUB_PORT_LIST are
false and those of TYPE and REMOTE_PATH_ID_LIST hold; create with no attributes
succeeds all the same, because no attribute is supplied, and stores the defaults. -/
theorem ars_create_without_attributes (apiMax : Nat) (r : Registry) :
    (arsPathProfileSchema apiMax).all (fun e => e.default.isSome && !e.mandatory) = true ∧
    defaultFill (arsPathProfileSchema apiMax) [] =
      [(SAI_ARS_PATH_PROFILE_ATTR_TYPE.val, .enumValue SAI_ARS_PATH_PROFILE_TYPE_NONE.val),
       (SAI_ARS_PATH_PROFILE_ATTR_MON_PORT_LIST.val, .objectList []),
       (SAI_ARS_PATH_PROFILE_ATTR_PUB_PORT_LIST.val, .objectList []),
       (SAI_ARS_PATH_PROFILE_ATTR_REMOTE_PATH_ID_LIST.val, .u32List [])] ∧
    (appliesOn (arsPathProfileSchema apiMax) SAI_ARS_PATH_PROFILE_ATTR_TYPE.val
        (defaultFill (arsPathProfileSchema apiMax) []) = some true ∧
      appliesOn (arsPathProfileSchema apiMax) SAI_ARS_PATH_PROFILE_ATTR_MON_PORT_LIST.val
        (defaultFill (arsPathProfileSchema apiMax) []) = some false ∧
      appliesOn (arsPathProfileSchema apiMax) SAI_ARS_PATH_PROFILE_ATTR_PUB_PORT_LIST.val
        (defaultFill (arsPathProfileSchema apiMax) []) = some false ∧
      appliesOn (arsPathProfileSchema apiMax) SAI_ARS_PATH_PROFILE_ATTR_REMOTE_PATH_ID_LIST.val
        (defaultFill (arsPathProfileSchema apiMax) []) = some true) ∧
    create apiMax r SAI_OBJECT_TYPE_ARS_PATH_PROFILE [] =
      ({ next := r.next + 1
         objects := r.objects ++
           [(⟨SAI_OBJECT_TYPE_ARS_PATH_PROFILE, r.next⟩,
             { attrs := defaultFill (arsPathProfileSchema apiMax) [],
               accum := ⟨0, 0, 0⟩ })] },
       .ok ⟨SAI_OBJECT_TYPE_ARS_PATH_PROFILE, r.next⟩) := by
  refine ⟨?_, rfl, ⟨?_, ?_, ?_, ?_⟩, rfl⟩ <;> rw [arsPathProfileSchema_eq] <;> decide

/-- C6, evaluated on the headers: the caller-settable entries that have neither a
default nor the mandatory marking are none for the ARS path profile and exactly
`SAI_PERFMON_ATTR_OBJECT_TYPE` for the performance monitor, whose tags are
`@flags CREATE_AND_SET` without `@default`. -/
theorem perfmon_object_type_lacks_default (apiMax : Nat) :
    (arsPathProfileSchema apiMax).filter SchemaEntry.lacksDefault = [] ∧
    ((perfmonSchema apiMax).filter SchemaEntry.lacksDefault).map (fun e => e.id) =
      [SAI_PERFMON_ATTR_OBJECT_TYPE.val] ∧
    (sai_perfmon_attr_t.doc SAI_PERFMON_ATTR_OBJECT_TYPE).map
        (fun d => (d.flags, d.default)) = some ([.CREATE_AND_SET], none) ∧
    ((declaredAttrs sai_perfmon_attr_t.decl sai_perfmon_attr_t.doc).filter
        (fun a => a ≠ SAI_PERFMON_ATTR_OBJECT_TYPE)).map
        (fun a => (sai_perfmon_attr_t.doc a).map (fun d => (d.flags, d.default))) =
      [some ([.CREATE_AND_SET], some (.const .SAI_COMMON_API_MAX)),
       some ([.CREATE_AND_SET], some (.const (.metrics SAI_PERFMON_METRICS_NONE))),
       some ([.READ_ONLY], none)] := by
  rw [arsPathProfileSchema_eq, perfmonSchema_eq]
  refine ⟨by decide, ?_, by decide, by decide⟩
  rfl

/-- C7. The value kinds of the declared attributes: ARS path profile TYPE is an
enum value of `sai_ars_path_profile_type_t`, MON_PORT_LIST and PUB_PORT_LIST are
object lists whose only allowed object type is PORT, REMOTE_PATH_ID_LIST is a
list of unsigned 32-bit integers; performance monitor OBJECT_TYPE, COMMON_API
and PERFMON_METRICS are enum values and PERFMON_DATA is an unsigned 64-bit
integer; every kind is one of the closed variant. -/
theorem attribute_value_kinds (apiMax : Nat) :
    (arsPathProfileSchema apiMax).map (fun e => (e.id, e.kind, e.objects)) =
      [(SAI_ARS_PATH_PROFILE_ATTR_TYPE.val, .enumValue, []),
       (SAI_ARS_PATH_PROFILE_ATTR_MON_PORT_LIST.val, .objectList, [SAI_OBJECT_TYPE_PORT]),
       (SAI_ARS_PATH_PROFILE_ATTR_PUB_PORT_LIST.val, .objectList, [SAI_OBJECT_TYPE_PORT]),
       (SAI_ARS_PATH_PROFILE_ATTR_REMOTE_PATH_ID_LIST.val, .u32List, [])] ∧
    (sai_ars_path_profile_attr_t.doc SAI_ARS_PATH_PROFILE_ATTR_TYPE).map (fun d => d.type) =
      some .sai_ars_path_profile_type_t ∧
    (perfmonSchema apiMax).map (fun e => (e.id, e.kind, e.objects)) =
      [(SAI_PERFMON_ATTR_OBJECT_TYPE.val, .enumValue, []),
       (SAI_PERFMON_ATTR_COMMON_API.val, .enumValue, []),
       (SAI_PERFMON_ATTR_PERFMON_METRICS.val, .enumValue, []),
       (SAI_PERFMON_ATTR_PERFMON_DATA.val, .u64, [])] ∧
    (arsPathProfileSchema apiMax ++ perfmonSchema apiMax).all
      (fun e => closedVariant.contains e.kind) = true := by
  rw [arsPathProfileSchema_eq, perfmonSchema_eq]
  exact ⟨rfl, rfl, rfl, rfl⟩

/-- C10. The profile types have the values PUBLISHER=0, SUBSCRIBER=1, BOTH=2,
NONE=3; the default of TYPE is NONE, which is 3 and not the zero value; the
profile type of value 0 is PUBLISHER, and with TYPE holding 0 both port lists
are applicable.  The metric kinds have the values NONE=0, MAX_LATENCY=1,
AVERAGE_LATENCY=2, INST_LATENCY=3 and the default of PERFMON_METRICS is NONE,
the zero value. -/
theorem profile_type_and_metric_values (apiMax : Nat) (rest : AttrList) :
    sai_ars_path_profile_type_t.decl.map (fun p => (p.1, p.1.val)) =
      [(SAI_ARS_PATH_PROFILE_TYPE_PUBLISHER, 0), (SAI_ARS_PATH_PROFILE_TYPE_SUBSCRIBER, 1),
       (SAI_ARS_PATH_PROFILE_TYPE_BOTH, 2), (SAI_ARS_PATH_PROFILE_TYPE_NONE, 3)] ∧
    (sai_ars_path_profile_attr_t.doc SAI_ARS_PATH_PROFILE_ATTR_TYPE).map (fun d => d.default) =
      some (some (.const (.arsType SAI_ARS_PATH_PROFILE_TYPE_NONE))) ∧
    (lookupEntry (arsPathProfileSchema apiMax) SAI_ARS_PATH_PROFILE_ATTR_TYPE.val).map
        (fun e => e.default) = some (some (.enumValue 3)) ∧
    SAI_ARS_PATH_PROFILE_TYPE_NONE.val ≠ 0 ∧
    (∀ t : sai_ars_path_profile_type_t, t.val = 0 ↔ t = SAI_ARS_PATH_PROFILE_TYPE_PUBLISHER) ∧
    appliesOn (arsPathProfileSchema apiMax) SAI_ARS_PATH_PROFILE_ATTR_MON_PORT_LIST.val
        ((SAI_ARS_PATH_PROFILE_ATTR_TYPE.val, .enumValue 0) :: rest) = some true ∧
    appliesOn (arsPathProfileSchema apiMax) SAI_ARS_PATH_PROFILE_ATTR_PUB_PORT_LIST.val
        ((SAI_ARS_PATH_PROFILE_ATTR_TYPE.val, .enumValue 0) :: rest) = some true ∧
    sai_perfmon_metrics_t.decl.map (fun p => (p.1, p.1.val)) =
      [(SAI_PERFMON_METRICS_NONE, 0), (SAI_PERFMON_METRICS_MAX_LATENCY, 1),
       (SAI_PERFMON_METRICS_AVERAGE_LATENCY, 2), (SAI_PERFMON_METRICS_INST_LATENCY, 3)] ∧
    (sai_perfmon_attr_t.doc SAI_PERFMON_ATTR_PERFMON_METRICS).map (fun d => d.default) =
      some (some (.const (.metrics SAI_PERFMON_METRICS_NONE))) ∧
    (lookupEntry (perfmonSchema apiMax) SAI_PERFMON_ATTR_PERFMON_METRICS.val).map
        (fun e => e.default) = some (some (.enumValue 0)) := by
  have hm : SAI_ARS_PATH_PROFILE_ATTR_MON_PORT_LIST.val = 1 := by decide
  have hp : SAI_ARS_PATH_PROFILE_ATTR_PUB_PORT_LIST.val = 2 := by decide
  have ha := port_list_appliesOn apiMax
    ((SAI_ARS_PATH_PROFILE_ATTR_TYPE.val, AttributeValue.enumValue 0) :: rest)
  have hl : ((SAI_ARS_PATH_PROFILE_ATTR_TYPE.val, AttributeValue.enumValue 0) :: rest).lookup 0
      = some (.enumValue 0) := rfl
  rw [hl] at ha
  rw [hm, hp, ha.1, ha.2]
  refine ⟨by decide, by decide, rfl, by decide, ?_, by decide, by decide, by decide,
    by decide, rfl⟩
  intro t
  cases t <;> decide

/-! ## Registry and aggregator -/

/-- Lookup in a list of objects mapped by a function that keeps the ids. -/
theorem lookup_map_of_fst_eq (f : ObjectId × Object → ObjectId × Object)
    (hf : ∀ p, (f p).1 = p.1) (k : ObjectId) (l : List (ObjectId × Object)) :
    (l.map f).lookup k = (l.lookup k).map (fun v => (f (k, v)).2) := by
  induction l with
  | nil => rfl
  | cons p es ih =>
    obtain ⟨a, b⟩ := p
    have h1 : f (a, b) = (a, (f (a, b)).2) := Prod.ext (hf _) rfl
    rw [List.map_cons, h1]
    by_cases hk : k = a
    · subst hk
      simp [List.lookup_cons]
    · have hb : (k == a) = false := by simpa using hk
      simp only [List.lookup_cons, hb]
      exact ih

/-- A sample never changes the id of an object. -/
theorem ingestObject_fst (objectType api latency : Nat) (p : ObjectId × Object) :
    (ingestObject objectType api latency p).1 = p.1 := by
  unfold ingestObject
  split
  · split <;> rfl
  · rfl

/-- The state of object `id` after one sample. -/
theorem lookup_ingest_sample (r : Registry) (id : ObjectId) (objectType api latency : Nat) :
    (ingest_sample r objectType api latency).objects.lookup id =
      (r.objects.lookup id).map (fun o => (ingestObject objectType api latency (id, o)).2) :=
  lookup_map_of_fst_eq _ (ingestObject_fst objectType api latency) id r.objects

/-- The matching latencies of a stream, sample by sample. -/
theorem matching_cons (objectType api : Nat) (x : Nat × Nat × Nat)
    (xs : List (Nat × Nat × Nat)) :
    matching objectType api (x :: xs) =
      matching objectType api [x] ++ matching objectType api xs := by
  unfold matching
  rw [← List.map_append, ← List.filter_append]
  rfl

/-- A stream made of latencies for one key matches that key entirely. -/
theorem matching_own_key (objectType api : Nat) (ls : List Nat) :
    matching objectType api (ls.map (fun x => (objectType, api, x))) = ls := by
  induction ls with
  | nil => rfl
  | cons x xs ih =>
    rw [List.map_cons, matching_cons, ih]
    simp [matching]

/-- The average of 64-bit latencies is a 64-bit number, so PERFMON_DATA
(`sai_uint64_t`) holds it without truncation. -/
theorem average_lt_two_pow_64 (ls : List Nat) (h : ∀ x ∈ ls, x < 2 ^ 64) :
    average ls < 2 ^ 64 := by
  unfold average
  split
  · exact Nat.two_pow_pos 64
  · rename_i hne
    have hlen : 0 < ls.length := List.length_pos.mpr hne
    have hsum : ls.sum ≤ ls.length • (2 ^ 64 - 1) :=
      List.sum_le_card_nsmul ls (2 ^ 64 - 1) (fun x hx => by have := h x hx; omega)
    rw [Nat.div_lt_iff_lt_mul hlen]
    rw [smul_eq_mul] at hsum
    have h1 : ls.length * (2 ^ 64 - 1) < 2 ^ 64 * ls.length := by
      rw [Nat.mul_comm (2 ^ 64) ls.length]
      exact Nat.mul_lt_mul_of_pos_left (by norm_num) hlen
    omega

/-- One more latency under AVERAGE_LATENCY. -/
theorem ingestEntry_average (ls : List Nat) (x : Nat) :
    ingestEntry SAI_PERFMON_METRICS_AVERAGE_LATENCY.val (averageAccum ls) x =
      averageAccum (ls ++ [x]) := by
  have h2 : SAI_PERFMON_METRICS_AVERAGE_LATENCY.val = 2 := by decide
  have h1 : SAI_PERFMON_METRICS_MAX_LATENCY.val = 1 := by decide
  simp [ingestEntry, averageAccum, average, h1, h2]

/-- Effect of one sample of any key on an average-latency entry with key
`(objectType, api)`. -/
theorem ingestObject_average (id : ObjectId) (o : Object) (objectType api : Nat)
    (hty : id.type = SAI_OBJECT_TYPE_PERFMON)
    (hk0 : o.attrs.lookup SAI_PERFMON_ATTR_OBJECT_TYPE.val = some (.enumValue objectType))
    (hk1 : o.attrs.lookup SAI_PERFMON_ATTR_COMMON_API.val = some (.enumValue api))
    (hm : o.attrs.lookup SAI_PERFMON_ATTR_PERFMON_METRICS.val =
      some (.enumValue SAI_PERFMON_METRICS_AVERAGE_LATENCY.val))
    (ls : List Nat) (hacc : o.accum = averageAccum ls) (x : Nat × Nat × Nat) :
    (ingestObject x.1 x.2.1 x.2.2 (id, o)).2.attrs = o.attrs ∧
    (ingestObject x.1 x.2.1 x.2.2 (id, o)).2.accum =
      averageAccum (ls ++ matching objectType api [x]) := by
  by_cases hx : x.1 = objectType ∧ x.2.1 = api
  · have hkey : matchesKey id o x.1 x.2.1 = true := by
      simp [matchesKey, hty, hk0, hk1, hx.1, hx.2]
    have hmt : matching objectType api [x] = [x.2.2] := by
      simp [matching, hx.1, hx.2]
    simp [ingestObject, hkey, hm, hacc, hmt, ingestEntry_average]
  · have hkey : matchesKey id o x.1 x.2.1 = false := by
      simp only [matchesKey, hty, hk0, hk1, decide_True, Bool.true_and, Option.some.injEq,
        AttributeValue.enumValue.injEq, Bool.and_eq_false_iff, decide_eq_false_iff_not]
      by_cases h1 : x.1 = objectType
      · right
        intro h2
        exact hx ⟨h1, h2.symm⟩
      · left
        intro h2
        exact h1 h2.symm
    have hmt : matching objectType api [x] = [] := by
      simp [matching, hx]
    simp [ingestObject, hkey, hmt, hacc]

/-- State of an average-latency entry after a stream of samples. -/
theorem ingestAll_average (id : ObjectId) (objectType api : Nat)
    (hty : id.type = SAI_OBJECT_TYPE_PERFMON) (samples : List (Nat × Nat × Nat)) :
    ∀ (r : Registry) (o : Object) (ls : List Nat),
      r.objects.lookup id = some o →
      o.attrs.lookup SAI_PERFMON_ATTR_OBJECT_TYPE.val = some (.enumValue objectType) →
      o.attrs.lookup SAI_PERFMON_ATTR_COMMON_API.val = some (.enumValue api) →
      o.attrs.lookup SAI_PERFMON_ATTR_PERFMON_METRICS.val =
        some (.enumValue SAI_PERFMON_METRICS_AVERAGE_LATENCY.val) →
      o.accum = averageAccum ls →
      ∃ o2, (ingestAll r samples).objects.lookup id = some o2 ∧
        o2.accum = averageAccum (ls ++ matching objectType api samples) := by
  induction samples with
  | nil =>
    intro r o ls hobj _ _ _ hacc
    exact ⟨o, hobj, by simpa [matching] using hacc⟩
  | cons x xs ih =>
    intro r o ls hobj hk0 hk1 hm hacc
    have hstep := ingestObject_average id o objectType api hty hk0 hk1 hm ls hacc x
    have hlook : (ingest_sample r x.1 x.2.1 x.2.2).objects.lookup id =
        some (ingestObject x.1 x.2.1 x.2.2 (id, o)).2 := by
      rw [lookup_ingest_sample, hobj]
      rfl
    have hrec := ih (ingest_sample r x.1 x.2.1 x.2.2)
      (ingestObject x.1 x.2.1 x.2.2 (id, o)).2 (ls ++ matching objectType api [x]) hlook
      (by rw [hstep.1]; exact hk0) (by rw [hstep.1]; exact hk1) (by rw [hstep.1]; exact hm)
      hstep.2
    obtain ⟨o2, h2, h3⟩ := hrec
    refine ⟨o2, ?_, ?_⟩
    · simpa [ingestAll] using h2
    · rw [h3, List.append_assoc, ← matching_cons]

/-- Reading PERFMON_DATA of an existing performance monitor entry. -/
theorem get_perfmon_data (r : Registry) (id : ObjectId) (o : Object)
    (hty : id.type = SAI_OBJECT_TYPE_PERFMON) (hobj : r.objects.lookup id = some o) :
    get r id [SAI_PERFMON_ATTR_PERFMON_DATA.val] =
      .ok [(SAI_PERFMON_ATTR_PERFMON_DATA.val, some (.u64 o.accum.data))] := by
  have hv : validAttrId SAI_OBJECT_TYPE_PERFMON SAI_PERFMON_ATTR_PERFMON_DATA.val = true := by
    decide
  simp [get, hobj, hty, hv, readAttr]

/-- C2. PERFMON_DATA is tagged `@flags READ_ONLY`, and for every registry, every
performance monitor object in it and every supplied value, set-attribute on
PERFMON_DATA fails NotSettable and returns the registry as it was. -/
theorem perfmon_data_not_settable (apiMax : Nat) (r : Registry) (id : ObjectId) (o : Object)
    (v : AttributeValue) (hty : id.type = SAI_OBJECT_TYPE_PERFMON)
    (hobj : r.objects.lookup id = some o) :
    (sai_perfmon_attr_t.doc SAI_PERFMON_ATTR_PERFMON_DATA).map (fun d => d.flags) =
      some [.READ_ONLY] ∧
    (lookupEntry (perfmonSchema apiMax) SAI_PERFMON_ATTR_PERFMON_DATA.val).map
      SchemaEntry.readOnly = some true ∧
    set apiMax r id (SAI_PERFMON_ATTR_PERFMON_DATA.val, v) = (r, .error .NotSettable) := by
  have hd : SAI_PERFMON_ATTR_PERFMON_DATA.val = 3 := by decide
  have he : (lookupEntry (perfmonSchema apiMax) 3).any SchemaEntry.readOnly = true := by
    rw [perfmonSchema_eq]
    rfl
  refine ⟨by decide, ?_, ?_⟩
  · rw [perfmonSchema_eq]
    rfl
  · simp only [set, hobj, hty, schema?, hd, he, if_true]

/-- Witness for C2: on the example registry, setting PERFMON_DATA to a boolean or
to a 64-bit number fails NotSettable. -/
theorem perfmon_data_not_settable_witness :
    perfmonExample.objects.lookup ⟨SAI_OBJECT_TYPE_PERFMON, 0⟩ =
      some perfmonExampleEntry ∧
    set 8 perfmonExample ⟨SAI_OBJECT_TYPE_PERFMON, 0⟩ (3, .boolean true) =
      (perfmonExample, .error .NotSettable) ∧
    set 8 perfmonExample ⟨SAI_OBJECT_TYPE_PERFMON, 0⟩ (3, .u64 7) =
      (perfmonExample, .error .NotSettable) :=
  ⟨by decide,
   (perfmon_data_not_settable 8 perfmonExample ⟨SAI_OBJECT_TYPE_PERFMON, 0⟩
      perfmonExampleEntry (.boolean true)
      rfl (by decide)).2.2,
   (perfmon_data_not_settable 8 perfmonExample ⟨SAI_OBJECT_TYPE_PERFMON, 0⟩
      perfmonExampleEntry (.u64 7)
      rfl (by decide)).2.2⟩

/-- C8. For a performance monitor entry with metric AVERAGE_LATENCY, key
`(objectType, api)` and the accumulation state of a new entry: after any finite
stream of samples, PERFMON_DATA read through get() is the integer quotient of
the sum by the number of the latencies whose sample has the entry's key, and 0
when there is none; in particular after the latencies `ls` ingested for its key
it is `ls.sum / ls.length`, and 0 for the empty sequence. -/
theorem average_latency_data (r : Registry) (id : ObjectId) (o : Object)
    (objectType api : Nat) (samples : List (Nat × Nat × Nat)) (ls : List Nat)
    (hty : id.type = SAI_OBJECT_TYPE_PERFMON)
    (hobj : r.objects.lookup id = some o)
    (hk0 : o.attrs.lookup SAI_PERFMON_ATTR_OBJECT_TYPE.val = some (.enumValue objectType))
    (hk1 : o.attrs.lookup SAI_PERFMON_ATTR_COMMON_API.val = some (.enumValue api))
    (hm : o.attrs.lookup SAI_PERFMON_ATTR_PERFMON_METRICS.val =
      some (.enumValue SAI_PERFMON_METRICS_AVERAGE_LATENCY.val))
    (hnew : o.accum = ⟨0, 0, 0⟩) :
    get (ingestAll r samples) id [SAI_PERFMON_ATTR_PERFMON_DATA.val] =
      .ok [(SAI_PERFMON_ATTR_PERFMON_DATA.val,
            some (.u64 (average (matching objectType api samples))))] ∧
    get (ingestAll r (ls.map (fun x => (objectType, api, x)))) id
        [SAI_PERFMON_ATTR_PERFMON_DATA.val] =
      .ok [(SAI_PERFMON_ATTR_PERFMON_DATA.val,
            some (.u64 (if ls = [] then 0 else ls.sum / ls.length)))] := by
  have key : ∀ ss : List (Nat × Nat × Nat),
      get (ingestAll r ss) id [SAI_PERFMON_ATTR_PERFMON_DATA.val] =
        .ok [(SAI_PERFMON_ATTR_PERFMON_DATA.val,
              some (.u64 (average (matching objectType api ss))))] := by
    intro ss
    obtain ⟨o2, h2, h3⟩ :=
      ingestAll_average id objectType api hty ss r o [] hobj hk0 hk1 hm (by rw [hnew]; rfl)
    rw [get_perfmon_data _ id o2 hty h2, h3]
    simp [averageAccum]
  refine ⟨key samples, ?_⟩
  rw [key]
  rw [matching_own_key]
  rfl

/-- Witness for C8: the entry of the example registry, fed the latencies 10, 20, 30
for its key (5, 2) among a sample of another key, reads 20; fed nothing it
reads 0. -/
theorem average_latency_data_witness :
    perfmonExample.objects.lookup ⟨SAI_OBJECT_TYPE_PERFMON, 0⟩ = some perfmonExampleEntry ∧
    get (ingestAll perfmonExample [(5, 2, 10), (5, 2, 20), (4, 2, 1000), (5, 2, 30)])
        ⟨SAI_OBJECT_TYPE_PERFMON, 0⟩ [3] = .ok [(3, some (.u64 20))] ∧
    get (ingestAll perfmonExample [(5, 2, 10), (5, 2, 20), (5, 2, 30)])
        ⟨SAI_OBJECT_TYPE_PERFMON, 0⟩ [3] = .ok [(3, some (.u64 20))] ∧
    get (ingestAll perfmonExample []) ⟨SAI_OBJECT_TYPE_PERFMON, 0⟩ [3] =
      .ok [(3, some (.u64 0))] :=
  ⟨by decide,
   (average_latency_data perfmonExample ⟨SAI_OBJECT_TYPE_PERFMON, 0⟩ perfmonExampleEntry 5 2
      [(5, 2, 10), (5, 2, 20), (4, 2, 1000), (5, 2, 30)] [] rfl
      (by decide) (by decide) (by decide) (by decide) rfl).1,
   (average_latency_data perfmonExample ⟨SAI_OBJECT_TYPE_PERFMON, 0⟩ perfmonExampleEntry 5 2 []
      [10, 20, 30] rfl (by decide) (by decide) (by decide) (by decide) rfl).2,
   (average_latency_data perfmonExample ⟨SAI_OBJECT_TYPE_PERFMON, 0⟩ perfmonExampleEntry 5 2 [] [] rfl
      (by decide) (by decide) (by decide) (by decide) rfl).1⟩

end SAI
